import Mathlib

/-!
# Verification of the Bangazon product API views

A shallow embedding of `bangazonapi/views/product.py` and
`bangazonapi/models/userlike.py` (Django / Django REST Framework).

Modelling conventions:

* The entity store is a `State` holding the rows of the `Product`,
  `ProductRating` and `UserLike` tables as lists of records.  Django
  auto-increment primary keys are modelled by `freshId` (max existing id + 1).
* `Model.objects.get(...)` is `djangoGet`: zero matches raise `DoesNotExist`,
  two or more raise `MultipleObjectsReturned`, exactly one is returned.
* Python exceptions that escape a handler are the `Except.error` side of each
  handler's result (Django turns them into an HTTP 500 response).
* Attribute access on the `rest_framework.status` module is `drfStatus` /
  `statusOf`; the module is a fixed finite attribute set, so looking up a name
  that is not an attribute (`HTTP_404_NOT_found`, views/product.py line 381)
  raises `AttributeError`.
* Numeric query parameters arrive as strings; Python `int(str)` is `pyInt`
  (optional sign followed by decimal digits; anything else — in particular a
  string with a fractional part such as `"10.5"` — raises `ValueError`).
  Python digit-grouping underscores are not modelled; no claim exercises them.
* String ordering and substring search are spelled out over `String.data` so
  that every definition evaluates inside the kernel.
* SQL `ORDER BY` leaves the relative order of ties unspecified; the model
  fixes it with a stable insertion sort (`sortLe`).  Theorems that compare two
  orderings therefore assume the sort keys are duplicate-free.
-/

namespace Bangazon

/-- A row of the `Product` table (fields of the `Product` model that
`views/product.py` reads: pk, scalar columns, category and owner foreign
keys).  `created_date` is a date, modelled as an ordinal day number; `price`
is a `DecimalField`, modelled as a rational. -/
structure Product where
  id : Nat
  name : String
  price : Rat
  number_sold : Nat
  description : String
  quantity : Nat
  created_date : Nat
  location : String
  category_id : Nat
  customer_id : Nat
deriving DecidableEq

/-- A row of the `ProductRating` table: `(product, customer, rating)` plus pk. -/
structure ProductRating where
  id : Nat
  product_id : Nat
  customer_id : Nat
  rating : Int
deriving DecidableEq

/-- A row of the `UserLike` table, from `models/userlike.py`: two foreign keys
(`product`, with `related_name="liked"`, and `customer`) plus the implicit
auto pk.  The model declares no uniqueness constraint on the pair. -/
structure UserLike where
  id : Nat
  product_id : Nat
  customer_id : Nat
deriving DecidableEq

/-- The entity store: the three tables the product views touch.  Customers
are referenced by id only (`Customer.objects.get(user=request.auth.user)`
resolves the authenticated requester; handlers below take that customer id as
an argument). -/
structure State where
  products : List Product
  ratings : List ProductRating
  likes : List UserLike
deriving DecidableEq

/-- Python exceptions that can escape the handlers.  An escaped exception is
rendered by Django as an HTTP 500 server error. -/
inductive PyErr where
  | doesNotExist : String → PyErr
  | multipleObjectsReturned : String → PyErr
  | attributeError : String → PyErr
  | valueError : String → PyErr
  | fieldError : String → PyErr
  | assertionError : String → PyErr
deriving DecidableEq

deriving instance DecidableEq for Except

/-- An HTTP response as the claims observe it: status code plus the optional
`message` body (for `rest_framework.response.Response({'message': ...})`) or
error text (for `HttpResponseServerError`). -/
structure Resp where
  status : Nat
  message : Option String
deriving DecidableEq

/-- `Model.objects.get(<cond>)`: exactly one matching row, else
`DoesNotExist` / `MultipleObjectsReturned` (tagged with the model name). -/
def djangoGet {α : Type} (rows : List α) (cond : α → Bool) (model : String) : Except PyErr α :=
  match rows.filter cond with
  | [] => .error (.doesNotExist model)
  | [r] => .ok r
  | _ :: _ :: _ => .error (.multipleObjectsReturned model)

/-- The attributes of the `rest_framework.status` module that
`views/product.py` references (every constant the real module defines under
these names, and nothing under any other spelling used in the file).  Names
that are not attributes yield `none`. -/
def drfStatus : String → Option Nat
  | "HTTP_200_OK" => some 200
  | "HTTP_201_CREATED" => some 201
  | "HTTP_204_NO_CONTENT" => some 204
  | "HTTP_400_BAD_REQUEST" => some 400
  | "HTTP_404_NOT_FOUND" => some 404
  | "HTTP_422_UNPROCESSABLE_ENTITY" => some 422
  | "HTTP_500_INTERNAL_SERVER_ERROR" => some 500
  | _ => none

/-- Python attribute access `status.<name>`: `AttributeError` when the module
has no such attribute. -/
def statusOf (name : String) : Except PyErr Nat :=
  match drfStatus name with
  | some c => .ok c
  | none => .error (.attributeError name)

/-- Django auto-increment pk for a newly saved row. -/
def freshId (ids : List Nat) : Nat := ids.foldr max 0 + 1

/-- `django.http.HttpResponseServerError` carries class default
`status_code = 500`, but an explicit `status=` constructor argument overrides
it (`HttpResponseBase.__init__`). -/
def httpResponseServerErrorStatus (status? : Option Nat) : Nat := status?.getD 500

/-- Python `int(s)` for a string `s`: optional sign then decimal digits;
everything else raises `ValueError`.  (Digit-grouping underscores, which
Python also accepts, are outside the model's scope.) -/
def isDigitChar (c : Char) : Bool := decide ('0' ≤ c) && decide (c ≤ '9')

/-- Accumulator pass of `pyInt` over the digit characters. -/
def digitsToNat (acc : Nat) : List Char → Nat
  | [] => acc
  | c :: cs => digitsToNat (acc * 10 + (c.toNat - '0'.toNat)) cs

/-- Python `int : str → int`, as an `Option` (`none` = `ValueError`). -/
def pyInt (s : String) : Option Int :=
  let signed : Int × List Char :=
    match s.data with
    | '+' :: rest => (1, rest)
    | '-' :: rest => (-1, rest)
    | cs => (1, cs)
  match signed with
  | (sign, digits) =>
    if digits.isEmpty then none
    else if digits.all isDigitChar then some (sign * digitsToNat 0 digits)
    else none

/-- `pyInt`, raising `ValueError` like Python `int`. -/
def pyIntE (s : String) : Except PyErr Int :=
  match pyInt s with
  | some k => .ok k
  | none => .error (.valueError s)

/-- Lexicographic order on character lists (SQL text collation for the
`order_by` fields), via the code points. -/
def charListLe : List Char → List Char → Bool
  | [], _ => true
  | _ :: _, [] => false
  | a :: as, b :: bs =>
    if a.toNat < b.toNat then true
    else if b.toNat < a.toNat then false
    else charListLe as bs

/-- `needle` occurs as a contiguous substring of the character list
(`location__contains` / SQL `LIKE %needle%`). -/
def containsAux (needle : List Char) : List Char → Bool
  | [] => needle.isEmpty
  | c :: rest => needle.isPrefixOf (c :: rest) || containsAux needle rest

/-- String containment used by the `location` filter. -/
def strContains (hay needle : String) : Bool := containsAux needle.data hay.data

/-- The Product columns Django can resolve in an `order_by` clause here. -/
inductive OrderField where
  | id | name | price | number_sold | description | quantity | created_date | location
deriving DecidableEq

/-- Resolution of a plain column name in `order_by` (unknown names raise
`FieldError` when the query is compiled). -/
def parseOrderField : String → Option OrderField
  | "id" => some .id
  | "pk" => some .id
  | "name" => some .name
  | "price" => some .price
  | "number_sold" => some .number_sold
  | "description" => some .description
  | "quantity" => some .quantity
  | "created_date" => some .created_date
  | "location" => some .location
  | _ => none

/-- Django `order_by(f)` key resolution: at most one leading `-` selects
descending order, the remainder must resolve to a column. -/
def djangoOrderKey (f : String) : Option (OrderField × Bool) :=
  match f.data with
  | '-' :: rest => (parseOrderField (String.mk rest)).map (fun fld => (fld, true))
  | _ => (parseOrderField f).map (fun fld => (fld, false))

/-- Column comparison backing `ORDER BY <field> ASC`. -/
def fieldLe : OrderField → Product → Product → Bool
  | .id, a, b => decide (a.id ≤ b.id)
  | .name, a, b => charListLe a.name.data b.name.data
  | .price, a, b => decide (a.price ≤ b.price)
  | .number_sold, a, b => decide (a.number_sold ≤ b.number_sold)
  | .description, a, b => charListLe a.description.data b.description.data
  | .quantity, a, b => decide (a.quantity ≤ b.quantity)
  | .created_date, a, b => decide (a.created_date ≤ b.created_date)
  | .location, a, b => charListLe a.location.data b.location.data

/-- Insert into a sorted list (helper of `sortLe`). -/
def insertLe {α : Type} (le : α → α → Bool) (a : α) : List α → List α
  | [] => [a]
  | b :: l => if le a b then a :: b :: l else b :: insertLe le a l

/-- Stable insertion sort: the model's deterministic stand-in for SQL
`ORDER BY` (which leaves tie order unspecified). -/
def sortLe {α : Type} (le : α → α → Bool) : List α → List α
  | [] => []
  | a :: l => insertLe le a (sortLe le l)

/-- `ORDER BY created_date DESC` comparison (`order_by("-created_date")`). -/
def createdDescLe (a b : Product) : Bool := decide (b.created_date ≤ a.created_date)

/-- The seven query parameters `Products.list` reads (lines 267-273); each is
the raw string from the query dict. -/
structure QueryParams where
  category : Option String := none
  quantity : Option String := none
  order_by : Option String := none
  direction : Option String := none
  number_sold : Option String := none
  min_price : Option String := none
  location : Option String := none
deriving DecidableEq

/-- Stage 1 (lines 275-276): `location` substring filter. -/
def applyLocation (loc : Option String) (ps : List Product) : List Product :=
  match loc with
  | none => ps
  | some l => ps.filter (fun p => strContains p.location l)

/-- Stage 2 (lines 278-285): `order_by` + `direction`.  The direction is
consulted only when `order_by` is present, and only the literal string
`"desc"` prefixes the field with `-`. -/
def applyOrder (order dir : Option String) (ps : List Product) : Except PyErr (List Product) :=
  match order with
  | none => .ok ps
  | some f =>
    let ofield := if dir = some "desc" then "-" ++ f else f
    match djangoOrderKey ofield with
    | none => .error (.fieldError ofield)
    | some (fld, true) => .ok (sortLe (fun a b => fieldLe fld b a) ps)
    | some (fld, false) => .ok (sortLe (fieldLe fld) ps)

/-- Stage 3 (lines 287-288): `category` exact id filter.  The raw string is
coerced by the ORM integer field (`int`, `ValueError` on failure). -/
def applyCategory (cat : Option String) (ps : List Product) : Except PyErr (List Product) :=
  match cat with
  | none => .ok ps
  | some c => do
    let k ← pyIntE c
    pure (ps.filter (fun p => (p.category_id : Int) == k))

/-- Stage 4 (lines 290-291): `quantity` re-orders by `-created_date` and
slices.  `int(quantity)` is evaluated eagerly at the slice; Django queryset
slicing rejects negative bounds. -/
def applyQuantity (q : Option String) (ps : List Product) : Except PyErr (List Product) :=
  match q with
  | none => .ok ps
  | some qs => do
    let n ← pyIntE qs
    if n < 0 then .error (.assertionError "Negative indexing is not supported.")
    else pure ((sortLe createdDescLe ps).take n.toNat)

/-- Stage 5 (lines 293-298): `number_sold` lower-bound filter through Python
`filter`.  The predicate — and hence `int(number_sold)` — only runs when the
incoming sequence is non-empty (the lambda is lazily invoked per element). -/
def applyNumberSold (ns : Option String) (ps : List Product) : Except PyErr (List Product) :=
  match ns with
  | none => .ok ps
  | some nstr =>
    match ps with
    | [] => .ok []
    | _ :: _ => do
      let n ← pyIntE nstr
      pure (ps.filter (fun p => decide (n ≤ (p.number_sold : Int))))

/-- Stage 6 (lines 300-305): `min_price` lower-bound filter, same lazy
`filter` pattern; the decimal price is compared against `int(min_price)`. -/
def applyMinPrice (mp : Option String) (ps : List Product) : Except PyErr (List Product) :=
  match mp with
  | none => .ok ps
  | some mstr =>
    match ps with
    | [] => .ok []
    | _ :: _ => do
      let k ← pyIntE mstr
      pure (ps.filter (fun p => decide ((k : Rat) ≤ p.price)))

/-- `Products.list` (lines 225-309), as the sequence of query-parameter
stages the handler applies to `Product.objects.all()`.  The returned value is
the sequence of products the serializer renders.  The per-request `liked`
annotation loop (lines 255-264) mutates transient attributes that the ORM
re-query discards; it does not change which products are returned or their
order, and is omitted from the result.  The model covers authenticated
requests (`request.auth.user` resolves to a customer). -/
def Products.list (qp : QueryParams) (ps : List Product) : Except PyErr (List Product) := do
  let l0 := applyLocation qp.location ps
  let l1 ← applyOrder qp.order_by qp.direction l0
  let l2 ← applyCategory qp.category l1
  let l3 ← applyQuantity qp.quantity l2
  let l4 ← applyNumberSold qp.number_sold l3
  applyMinPrice qp.min_price l4

/-- Django `QueryDict.get`: the last value bound to the key, if any. -/
def rawGet (raw : List (String × String)) (k : String) : Option String :=
  ((raw.filter (fun kv => kv.1 == k)).getLast?).map Prod.snd

/-- The query dict of a request, reduced to the seven parameters the list
handler reads. -/
def paramsOfRaw (raw : List (String × String)) : QueryParams :=
  { category := rawGet raw "category"
    quantity := rawGet raw "quantity"
    order_by := rawGet raw "order_by"
    direction := rawGet raw "direction"
    number_sold := rawGet raw "number_sold"
    min_price := rawGet raw "min_price"
    location := rawGet raw "location" }

/-- `Products.retrieve` (lines 160-165): fetch by pk; on `DoesNotExist` the
handler returns `HttpResponseServerError(ex, status=HTTP_404_NOT_FOUND)`,
whose explicit `status` argument overrides the class's 500 default.  The body
of the error response is the stringified exception. -/
def Products.retrieve (s : State) (pk : Nat) : Except PyErr Resp :=
  match djangoGet s.products (fun p => p.id == pk) "Product" with
  | .ok _ => .ok { status := 200, message := none }
  | .error (.doesNotExist m) =>
    match drfStatus "HTTP_404_NOT_FOUND" with
    | some c =>
      .ok { status := httpResponseServerErrorStatus (some c),
            message := some (m ++ " matching query does not exist.") }
    | none => .error (.attributeError "HTTP_404_NOT_FOUND")
  | .error e => .error e

/-- `Products.rate`, POST branch (lines 313-334): fetch the product, then
look for *any* rating on it — scoped by product only, not by customer.  Found
one: 422 with a message and no state change.  None: save a new rating for
(product, requesting customer) with the request's rating value, 201.  (The
decorator also routes PUT here, which no branch handles.) -/
def Products.rate_post (s : State) (pk custId : Nat) (ratingValue : Int) :
    Except PyErr (Resp × State) := do
  let product ← djangoGet s.products (fun p => p.id == pk) "Product"
  match djangoGet s.ratings (fun r => r.product_id == product.id) "ProductRating" with
  | .ok _ => do
    let code ← statusOf "HTTP_422_UNPROCESSABLE_ENTITY"
    pure ({ status := code, message := some "You have already rated this product" }, s)
  | .error (.doesNotExist _) => do
    let newRating : ProductRating :=
      { id := freshId (s.ratings.map ProductRating.id)
        product_id := product.id
        customer_id := custId
        rating := ratingValue }
    let code ← statusOf "HTTP_201_CREATED"
    pure ({ status := code, message := none }, { s with ratings := s.ratings ++ [newRating] })
  | .error e => .error e

/-- `Products.like`, POST branch (lines 340-358): fetch the product, then
look for *any* like on it — scoped by product only.  Found one: 422 with a
message.  None: save a new like for (product, requesting customer), 201. -/
def Products.like_post (s : State) (pk custId : Nat) : Except PyErr (Resp × State) := do
  let product ← djangoGet s.products (fun p => p.id == pk) "Product"
  match djangoGet s.likes (fun l => l.product_id == product.id) "UserLike" with
  | .ok _ => do
    let code ← statusOf "HTTP_422_UNPROCESSABLE_ENTITY"
    pure ({ status := code, message := some "You have already liked this product" }, s)
  | .error (.doesNotExist _) => do
    let newLike : UserLike :=
      { id := freshId (s.likes.map UserLike.id)
        product_id := product.id
        customer_id := custId }
    let code ← statusOf "HTTP_201_CREATED"
    pure ({ status := code, message := none }, { s with likes := s.likes ++ [newLike] })
  | .error e => .error e

/-- `Products.like`, DELETE branch (lines 360-382): 400 when the product does
not exist; otherwise the like is looked up scoped by (product, customer) and
deleted (204).  When no such like exists, the handler evaluates
`status.HTTP_404_NOT_found` (line 381) — a name the status module does not
define — so the branch raises `AttributeError` instead of responding. -/
def Products.like_delete (s : State) (pk custId : Nat) : Except PyErr (Resp × State) :=
  match djangoGet s.products (fun p => p.id == pk) "Product" with
  | .error (.doesNotExist _) =>
    match statusOf "HTTP_400_BAD_REQUEST" with
    | .ok code => .ok ({ status := code, message := some "Product does not exist" }, s)
    | .error e => .error e
  | .error e => .error e
  | .ok product =>
    match djangoGet s.likes (fun l => l.product_id == product.id && l.customer_id == custId)
        "UserLike" with
    | .ok like =>
      match statusOf "HTTP_204_NO_CONTENT" with
      | .ok code =>
        .ok ({ status := code, message := none },
             { s with likes := s.likes.filter (fun l => l.id != like.id) })
      | .error e => .error e
    | .error (.doesNotExist _) =>
      match statusOf "HTTP_404_NOT_found" with
      | .ok code => .ok ({ status := code, message := some "You cannot unlike this product" }, s)
      | .error e => .error e
    | .error e => .error e

/-- `Products.liked` (lines 384-391): `Product.objects.filter(liked=True)`.
`liked` is not a column of `Product`; Django resolves the keyword to the
reverse foreign key named by `related_name="liked"` on `UserLike.product`
(models/userlike.py line 7), and coerces the non-model value `True` through
the related pk's integer field (`int(True) == 1`).  The queryset is therefore
the products referenced by a `UserLike` row with pk 1. -/
def Products.liked (s : State) : List Product :=
  s.products.filter (fun p => s.likes.any (fun l => l.id == 1 && l.product_id == p.id))

/-- Well-formedness every Django-representable store satisfies: primary keys
are unique per table and foreign keys reference existing products.  Note
there is no condition on (product, customer) pairs of likes or ratings: the
models declare none. -/
def State.wf (s : State) : Prop :=
  s.products.Pairwise (fun a b => a.id ≠ b.id) ∧
  s.ratings.Pairwise (fun a b => a.id ≠ b.id) ∧
  s.likes.Pairwise (fun a b => a.id ≠ b.id) ∧
  (∀ r ∈ s.ratings, ∃ p ∈ s.products, p.id = r.product_id) ∧
  (∀ l ∈ s.likes, ∃ p ∈ s.products, p.id = l.product_id)

instance (s : State) : Decidable s.wf := by
  unfold State.wf; infer_instance

/-- The invariant the rate/like handlers maintain (and their product-scoped
`objects.get` calls rely on): at most one rating and at most one like per
product.  It holds in every store reachable through the handlers, since
creation is refused whenever any record for the product exists. -/
def State.perProductUnique (s : State) : Prop :=
  s.ratings.Pairwise (fun a b => a.product_id ≠ b.product_id) ∧
  s.likes.Pairwise (fun a b => a.product_id ≠ b.product_id)

instance (s : State) : Decidable s.perProductUnique := by
  unfold State.perProductUnique; infer_instance

end Bangazon

namespace Bangazon

/-! ## Generic lemmas about keyed row lists -/

/-- In a list whose rows have pairwise distinct keys, at most one row matches
a key filter. -/
theorem filter_key_len_le_one {α β : Type} [DecidableEq β] (key : α → β) (k : β)
    (l : List α) (hl : l.Pairwise (fun a b => key a ≠ key b)) :
    (l.filter (fun a => key a == k)).length ≤ 1 := by
  induction l with
  | nil => simp
  | cons a t ih =>
    rcases List.pairwise_cons.mp hl with ⟨ha, ht⟩
    by_cases hk : key a = k
    · have hnil : t.filter (fun x => key x == k) = [] := by
        refine List.filter_eq_nil_iff.mpr ?_
        intro b hb
        simp only [beq_iff_eq]
        intro hkb
        exact ha b hb (hk.trans hkb.symm)
      simp [List.filter_cons, hk, hnil]
    · simpa [List.filter_cons, hk] using ih ht

/-- In a list whose rows have pairwise distinct keys, the filter for the key
of a member `x` returns exactly `[x]`. -/
theorem filter_key_singleton {α β : Type} [DecidableEq β] (key : α → β) (k : β) (x : α)
    (l : List α) (hl : l.Pairwise (fun a b => key a ≠ key b)) (hx : x ∈ l)
    (hk : key x = k) : l.filter (fun a => key a == k) = [x] := by
  induction l with
  | nil => cases hx
  | cons a t ih =>
    rcases List.pairwise_cons.mp hl with ⟨ha, ht⟩
    rcases List.mem_cons.mp hx with rfl | hxt
    · have hnil : t.filter (fun y => key y == k) = [] := by
        refine List.filter_eq_nil_iff.mpr ?_
        intro b hb
        simp only [beq_iff_eq]
        intro hkb
        exact ha b hb (hk.trans hkb.symm)
      simp [List.filter_cons, hk, hnil]
    · have hak : key a ≠ k := fun h => ha x hxt (h.trans hk.symm)
      simpa [List.filter_cons, hak] using ih ht hxt

/-- A filter over rows none of which satisfies the condition is empty. -/
theorem filter_key_nil {α β : Type} [DecidableEq β] (key : α → β) (k : β)
    (l : List α) (h : ∀ a ∈ l, key a ≠ k) : l.filter (fun a => key a == k) = [] := by
  refine List.filter_eq_nil_iff.mpr ?_
  intro a ha
  simp only [beq_iff_eq]
  exact h a ha

/-! ## The `objects.get` reductions the handler proofs use -/

theorem djangoGet_nil {α : Type} {rows : List α} {cond : α → Bool} {m : String}
    (h : rows.filter cond = []) : djangoGet rows cond m = .error (.doesNotExist m) := by
  simp [djangoGet, h]

theorem djangoGet_singleton {α : Type} {rows : List α} {cond : α → Bool} {m : String} {x : α}
    (h : rows.filter cond = [x]) : djangoGet rows cond m = .ok x := by
  simp [djangoGet, h]

/-! ## Sample rows shared by the concrete theorems -/

/-- A sample product (cf. the `Kite` example of the handler doc comments). -/
def pKite : Product :=
  { id := 1, name := "Kite", price := mkRat 1499 100, number_sold := 3, description := "It flies high", quantity := 60, created_date := 10, location := "Pittsburgh", category_id := 4, customer_id := 2 }

/-- A second sample product with a distinct pk, category and dates. -/
def pBall : Product :=
  { id := 2, name := "Ball", price := 20, number_sold := 0, description := "It is round", quantity := 5, created_date := 11, location := "Nashville", category_id := 6, customer_id := 3 }

end Bangazon

namespace Bangazon

/-! ## C2 — `like` DELETE -/

/-- C2 / 400 branch: no product with pk 99. -/
def sC2a : State := { products := [pKite], ratings := [], likes := [] }

/-- C2 / 204 branch: customer 7 has like 5 on product 1. -/
def sC2b : State := { products := [pKite], ratings := [], likes := [⟨5, 1, 7⟩] }

/-- C2 / missing-like branch: the only like on product 1 belongs to customer
9, so the (product, customer 7) lookup finds nothing. -/
def sC2c : State := { products := [pKite], ratings := [], likes := [⟨5, 1, 9⟩] }

/-- C2: a DELETE to /products/{p}/like returns 400 when the product does not
exist, and deletes the (product, customer)-scoped like with 204 when it
exists — but when no like exists for the pair, the handler does NOT return
404: evaluating `status.HTTP_404_NOT_found` (line 381; the module defines
`HTTP_404_NOT_FOUND`) raises `AttributeError`, which Django surfaces as an
HTTP 500.  The claim is right about the intended behaviour (the message and
the miscased constant make the 404 intent plain) and the code's typo breaks
it, so this is a defect of the code, witnessed here on concrete stores. -/
theorem C2_like_delete_missing_like_raises :
    Products.like_delete sC2a 99 7 =
      .ok ({ status := 400, message := some "Product does not exist" }, sC2a) ∧
    Products.like_delete sC2b 1 7 =
      .ok ({ status := 204, message := none }, { sC2b with likes := [] }) ∧
    Products.like_delete sC2c 1 7 = .error (.attributeError "HTTP_404_NOT_found") := by
  decide

/-! ## C3 — `retrieve` of a missing product -/

/-- C3 counterexample: on a store holding only product 1, retrieving pk 42
produces the wrapped error response with HTTP status 404 — not 500 as the
claim states: the explicit `status=status.HTTP_404_NOT_FOUND` argument
overrides `HttpResponseServerError`'s class default of 500. -/
theorem C3_counterexample :
    Products.retrieve sC2a 42 =
      .ok { status := 404, message := some "Product matching query does not exist." } ∧
    (404 : Nat) ≠ 500 := by
  decide

/-- C3 (amended): for every store and pk with no matching product, the
retrieve operation returns the `HttpResponseServerError`-built error response
whose HTTP status is 404 (the explicit `status` argument overrides the 500
class default), wrapping the `DoesNotExist` error text. -/
theorem C3_retrieve_missing_is_404 (s : State) (pk : Nat)
    (h : ∀ p ∈ s.products, p.id ≠ pk) :
    Products.retrieve s pk =
      .ok { status := 404, message := some "Product matching query does not exist." } := by
  have hnil : s.products.filter (fun p => p.id == pk) = [] :=
    filter_key_nil Product.id pk s.products h
  simp [Products.retrieve, djangoGet_nil hnil, drfStatus, httpResponseServerErrorStatus]

/-- C3 witness: the amended theorem applied to the concrete store. -/
theorem C3_retrieve_missing_is_404_witness :
    Products.retrieve sC2a 42 =
      .ok { status := 404, message := some "Product matching query does not exist." } :=
  C3_retrieve_missing_is_404 sC2a 42 (by decide)

/-! ## C6 — the `liked` endpoint -/

/-- C6 counterexample state: one like row whose pk happens to be 1. -/
def sC6 : State := { products := [pKite], ratings := [], likes := [⟨1, 1, 3⟩] }

/-- C6 counterexample: the claim says the `liked` filter can never match any
real product.  But `liked` is the `related_name` of the `UserLike.product`
foreign key, so `filter(liked=True)` resolves to the reverse relation with
`True` coerced to related pk 1: on a store whose like row has pk 1, the
response contains product 1 — not the empty array. -/
theorem C6_counterexample :
    Products.liked sC6 = [pKite] ∧ [pKite] ≠ ([] : List Product) := by
  decide

/-- C6 (amended): GET /products/liked returns the products referenced by a
`UserLike` row with primary key 1 (`True` is coerced to the related pk 1
through the reverse relation named `liked`); in particular the body is the
empty array exactly when no like row with pk 1 references a stored
product. -/
theorem C6_liked_empty_iff (s : State) :
    Products.liked s = [] ↔ ∀ p ∈ s.products, ∀ l ∈ s.likes, l.id = 1 → l.product_id ≠ p.id := by
  simp only [Products.liked, List.filter_eq_nil_iff, List.any_eq_true, Bool.and_eq_true,
    beq_iff_eq, not_exists, not_and]

/-! ## C10 — no uniqueness constraint on (product, customer) likes -/

/-- C10 witness state: two like rows, distinct pks, same (product, customer). -/
def sC10 : State := { products := [pKite], ratings := [], likes := [⟨1, 1, 3⟩, ⟨2, 1, 3⟩] }

/-- C10: the `UserLike` model carries no uniqueness constraint on the
(product, customer) pair: a well-formed store (unique pks, intact foreign
keys — everything the data model does enforce) can hold two distinct like
rows for the same product and customer.  Uniqueness of likes therefore rests
solely on the like handler's pre-insertion existence check. -/
theorem C10_userlike_pair_not_unique :
    ∃ s : State, s.wf ∧ ∃ l1 ∈ s.likes, ∃ l2 ∈ s.likes,
      l1 ≠ l2 ∧ l1.product_id = l2.product_id ∧ l1.customer_id = l2.customer_id := by
  exact ⟨sC10, by decide, ⟨1, 1, 3⟩, by decide, ⟨2, 1, 3⟩, by decide, by decide, rfl, rfl⟩

end Bangazon

namespace Bangazon

/-! ## Branch lemmas for the rate / like POST handlers -/

/-- A `DoesNotExist` result of `objects.get` means no row matched. -/
theorem filter_nil_of_djangoGet_dne {α : Type} {rows : List α} {cond : α → Bool}
    {m a : String} (h : djangoGet rows cond m = .error (.doesNotExist a)) :
    rows.filter cond = [] := by
  revert h
  unfold djangoGet
  cases hf : rows.filter cond with
  | nil => intro _; rfl
  | cons x t =>
    cases t with
    | nil => intro h; cases h
    | cons y u => intro h; cases h

/-- `rate` POST, blocked branch: some rating row matches the product. -/
theorem rate_post_422 (s : State) (p : Product) (custId : Nat) (v : Int) (r : ProductRating)
    (hprod : s.products.filter (fun q => q.id == p.id) = [p])
    (hrat : s.ratings.filter (fun x => x.product_id == p.id) = [r]) :
    Products.rate_post s p.id custId v =
      .ok ({ status := 422, message := some "You have already rated this product" }, s) := by
  simp [Products.rate_post, djangoGet_singleton hprod, djangoGet_singleton hrat,
    statusOf, drfStatus, bind, Except.bind, pure, Except.pure]

/-- `rate` POST, creating branch: no rating row matches the product. -/
theorem rate_post_201 (s : State) (p : Product) (custId : Nat) (v : Int)
    (hprod : s.products.filter (fun q => q.id == p.id) = [p])
    (hrat : s.ratings.filter (fun x => x.product_id == p.id) = []) :
    Products.rate_post s p.id custId v =
      .ok ({ status := 201, message := none },
           { s with ratings := s.ratings ++
               [{ id := freshId (s.ratings.map ProductRating.id), product_id := p.id,
                  customer_id := custId, rating := v }] }) := by
  simp [Products.rate_post, djangoGet_singleton hprod, djangoGet_nil hrat,
    statusOf, drfStatus, bind, Except.bind, pure, Except.pure]

/-- `like` POST, blocked branch: some like row matches the product. -/
theorem like_post_422 (s : State) (p : Product) (custId : Nat) (l : UserLike)
    (hprod : s.products.filter (fun q => q.id == p.id) = [p])
    (hlike : s.likes.filter (fun x => x.product_id == p.id) = [l]) :
    Products.like_post s p.id custId =
      .ok ({ status := 422, message := some "You have already liked this product" }, s) := by
  simp [Products.like_post, djangoGet_singleton hprod, djangoGet_singleton hlike,
    statusOf, drfStatus, bind, Except.bind, pure, Except.pure]

/-- `like` POST, creating branch: no like row matches the product. -/
theorem like_post_201 (s : State) (p : Product) (custId : Nat)
    (hprod : s.products.filter (fun q => q.id == p.id) = [p])
    (hlike : s.likes.filter (fun x => x.product_id == p.id) = []) :
    Products.like_post s p.id custId =
      .ok ({ status := 201, message := none },
           { s with likes := s.likes ++
               [{ id := freshId (s.likes.map UserLike.id), product_id := p.id,
                  customer_id := custId }] }) := by
  simp [Products.like_post, djangoGet_singleton hprod, djangoGet_nil hlike,
    statusOf, drfStatus, bind, Except.bind, pure, Except.pure]

/-! ## C1 — `rate` POST -/

/-- C1: on any well-formed store satisfying the handler-maintained invariant
(at most one rating per product — every store reachable through the handlers
satisfies it, see `rate_post_preserves_perProductUnique`), a POST to
/products/{p}/rate for an existing product returns 422 with the message when
ANY rating row for the product exists — whoever created it — and leaves the
store unchanged; otherwise it appends exactly one new rating row carrying the
request's rating value for (product, requesting customer) and returns 201.
In particular a second rating attempt on the same product, by any customer,
returns 422. -/
theorem C1_rate_post_scoped_by_product_only (s : State) (pk custId : Nat) (v : Int)
    (p : Product) (hwf : s.wf) (hinv : s.perProductUnique)
    (hp : p ∈ s.products) (hpk : p.id = pk) :
    ((∃ r ∈ s.ratings, r.product_id = pk) →
        Products.rate_post s pk custId v =
          .ok ({ status := 422, message := some "You have already rated this product" }, s)) ∧
    ((∀ r ∈ s.ratings, r.product_id ≠ pk) →
        Products.rate_post s pk custId v =
          .ok ({ status := 201, message := none },
               { s with ratings := s.ratings ++
                   [{ id := freshId (s.ratings.map ProductRating.id), product_id := pk,
                      customer_id := custId, rating := v }] })) ∧
    (∀ resp s2, Products.rate_post s pk custId v = .ok (resp, s2) → resp.status = 201 →
        ∀ c2 v2, Products.rate_post s2 pk c2 v2 =
          .ok ({ status := 422, message := some "You have already rated this product" }, s2)) := by
  subst hpk
  obtain ⟨hprodPW, _, _, _, _⟩ := hwf
  obtain ⟨hratPW, _⟩ := hinv
  have hprod : s.products.filter (fun q => q.id == p.id) = [p] :=
    filter_key_singleton Product.id p.id p s.products hprodPW hp rfl
  have h422 : (∃ r ∈ s.ratings, r.product_id = p.id) →
      Products.rate_post s p.id custId v =
        .ok ({ status := 422, message := some "You have already rated this product" }, s) := by
    rintro ⟨r, hr, hrpk⟩
    exact rate_post_422 s p custId v r hprod
      (filter_key_singleton ProductRating.product_id p.id r s.ratings hratPW hr hrpk)
  have h201 : (∀ r ∈ s.ratings, r.product_id ≠ p.id) →
      Products.rate_post s p.id custId v =
        .ok ({ status := 201, message := none },
             { s with ratings := s.ratings ++
                 [{ id := freshId (s.ratings.map ProductRating.id), product_id := p.id,
                    customer_id := custId, rating := v }] }) := by
    intro hno
    exact rate_post_201 s p custId v hprod
      (filter_key_nil ProductRating.product_id p.id s.ratings hno)
  refine ⟨h422, h201, ?_⟩
  intro resp s2 hres hstat c2 v2
  by_cases hex : ∃ r ∈ s.ratings, r.product_id = p.id
  · rw [h422 hex] at hres
    rw [Except.ok.injEq, Prod.mk.injEq] at hres
    obtain ⟨h1, _⟩ := hres
    rw [← h1] at hstat
    simp at hstat
  · push_neg at hex
    rw [h201 hex] at hres
    rw [Except.ok.injEq, Prod.mk.injEq] at hres
    obtain ⟨_, h2⟩ := hres
    subst h2
    have hratnil : s.ratings.filter (fun x => x.product_id == p.id) = [] :=
      filter_key_nil ProductRating.product_id p.id s.ratings hex
    have hrat2 : (s.ratings ++
        [({ id := freshId (s.ratings.map ProductRating.id), product_id := p.id,
            customer_id := custId, rating := v } : ProductRating)]).filter
          (fun x => x.product_id == p.id) =
        [({ id := freshId (s.ratings.map ProductRating.id), product_id := p.id,
            customer_id := custId, rating := v } : ProductRating)] := by
      rw [List.filter_append, hratnil]
      simp
    exact rate_post_422 _ p c2 v2 _ hprod hrat2

/-- C1 witness store: one product, no ratings yet. -/
def sC1 : State := { products := [pKite], ratings := [], likes := [] }

/-- C1 witness: on the concrete store, rating product 1 creates the rating
row and returns 201, and rating it again (even as another customer) returns
422. -/
theorem C1_rate_post_scoped_by_product_only_witness :
    Products.rate_post sC1 1 7 5 =
      .ok ({ status := 201, message := none },
           { sC1 with ratings := [{ id := 1, product_id := 1, customer_id := 7, rating := 5 }] }) ∧
    Products.rate_post
        { sC1 with ratings := [{ id := 1, product_id := 1, customer_id := 7, rating := 5 }] }
        1 9 2 =
      .ok ({ status := 422, message := some "You have already rated this product" },
           { sC1 with ratings := [{ id := 1, product_id := 1, customer_id := 7, rating := 5 }] }) := by
  have h := C1_rate_post_scoped_by_product_only sC1 1 7 5 pKite (by decide) (by decide)
    (by decide) rfl
  have h1 := h.2.1 (by decide)
  refine ⟨h1, ?_⟩
  exact h.2.2 _ _ h1 rfl 9 2

/-! ## C4 — `like` POST -/

/-- C4: on any well-formed store satisfying the handler-maintained invariant
(at most one like per product), a POST to /products/{p}/like for an existing
product returns 422 when ANY like row for the product exists — by any
customer, not only the requester — and leaves the store unchanged; otherwise
it appends exactly one new like row for (product, requesting customer) and
returns 201. -/
theorem C4_like_post_scoped_by_product_only (s : State) (pk custId : Nat)
    (p : Product) (hwf : s.wf) (hinv : s.perProductUnique)
    (hp : p ∈ s.products) (hpk : p.id = pk) :
    ((∃ l ∈ s.likes, l.product_id = pk) →
        Products.like_post s pk custId =
          .ok ({ status := 422, message := some "You have already liked this product" }, s)) ∧
    ((∀ l ∈ s.likes, l.product_id ≠ pk) →
        Products.like_post s pk custId =
          .ok ({ status := 201, message := none },
               { s with likes := s.likes ++
                   [{ id := freshId (s.likes.map UserLike.id), product_id := pk,
                      customer_id := custId }] })) := by
  subst hpk
  obtain ⟨hprodPW, _, _, _, _⟩ := hwf
  obtain ⟨_, hlikePW⟩ := hinv
  have hprod : s.products.filter (fun q => q.id == p.id) = [p] :=
    filter_key_singleton Product.id p.id p s.products hprodPW hp rfl
  constructor
  · rintro ⟨l, hl, hlpk⟩
    exact like_post_422 s p custId l hprod
      (filter_key_singleton UserLike.product_id p.id l s.likes hlikePW hl hlpk)
  · intro hno
    exact like_post_201 s p custId hprod
      (filter_key_nil UserLike.product_id p.id s.likes hno)

/-- C4 witness store: product 1 already liked by customer 9. -/
def sC4 : State := { products := [pKite], ratings := [], likes := [⟨3, 1, 9⟩] }

/-- C4 witness: customer 7's like on a product nobody has liked is created
with 201; customer 7's like on a product already liked by customer 9 is
rejected with 422. -/
theorem C4_like_post_scoped_by_product_only_witness :
    Products.like_post sC1 1 7 =
      .ok ({ status := 201, message := none },
           { sC1 with likes := [{ id := 1, product_id := 1, customer_id := 7 }] }) ∧
    Products.like_post sC4 1 7 =
      .ok ({ status := 422, message := some "You have already liked this product" }, sC4) := by
  constructor
  · exact (C4_like_post_scoped_by_product_only sC1 1 7 pKite (by decide) (by decide)
      (by decide) rfl).2 (by decide)
  · exact (C4_like_post_scoped_by_product_only sC4 1 7 pKite (by decide) (by decide)
      (by decide) rfl).1 (by decide)

end Bangazon

namespace Bangazon

/-! ## The rate/like handlers maintain the at-most-one-per-product invariant

Ratings and likes are created by `rate_post` / `like_post` alone and deleted
by `like_delete` alone (spec §3, Lifecycle), so these lemmas justify the
`perProductUnique` hypotheses of the handler theorems: the invariant holds of
the empty store and every handler step preserves it. -/

/-- A successful `rate` POST preserves at-most-one-rating-per-product. -/
theorem rate_post_preserves_perProductUnique (s : State) (pk c : Nat) (v : Int)
    (resp : Resp) (s2 : State) (hinv : s.perProductUnique)
    (h : Products.rate_post s pk c v = .ok (resp, s2)) : s2.perProductUnique := by
  obtain ⟨hrat, hlike⟩ := hinv
  revert h
  unfold Products.rate_post
  cases hg : djangoGet s.products (fun q => q.id == pk) "Product" with
  | error e => intro h; simp [bind, Except.bind] at h
  | ok product =>
    simp only [bind, Except.bind]
    cases hg2 : djangoGet s.ratings (fun r => r.product_id == product.id) "ProductRating" with
    | ok r =>
      intro h
      simp only [statusOf, drfStatus, bind, Except.bind, pure, Except.pure,
        Except.ok.injEq, Prod.mk.injEq] at h
      obtain ⟨-, h2⟩ := h
      rw [← h2]
      exact ⟨hrat, hlike⟩
    | error e =>
      cases e with
      | doesNotExist a =>
        intro h
        simp only [statusOf, drfStatus, bind, Except.bind, pure, Except.pure,
          Except.ok.injEq, Prod.mk.injEq] at h
        obtain ⟨-, h2⟩ := h
        rw [← h2]
        refine ⟨?_, hlike⟩
        rw [List.pairwise_append]
        refine ⟨hrat, by simp, ?_⟩
        intro x hx y hy
        have hnil := filter_nil_of_djangoGet_dne hg2
        have hxne := List.filter_eq_nil_iff.mp hnil x hx
        simp only [beq_iff_eq] at hxne
        rcases List.mem_singleton.mp hy with rfl
        simpa using hxne
      | multipleObjectsReturned a => intro h; simp at h
      | attributeError a => intro h; simp at h
      | valueError a => intro h; simp at h
      | fieldError a => intro h; simp at h
      | assertionError a => intro h; simp at h

/-- A successful `like` POST preserves at-most-one-like-per-product. -/
theorem like_post_preserves_perProductUnique (s : State) (pk c : Nat)
    (resp : Resp) (s2 : State) (hinv : s.perProductUnique)
    (h : Products.like_post s pk c = .ok (resp, s2)) : s2.perProductUnique := by
  obtain ⟨hrat, hlike⟩ := hinv
  revert h
  unfold Products.like_post
  cases hg : djangoGet s.products (fun q => q.id == pk) "Product" with
  | error e => intro h; simp [bind, Except.bind] at h
  | ok product =>
    simp only [bind, Except.bind]
    cases hg2 : djangoGet s.likes (fun l => l.product_id == product.id) "UserLike" with
    | ok r =>
      intro h
      simp only [statusOf, drfStatus, bind, Except.bind, pure, Except.pure,
        Except.ok.injEq, Prod.mk.injEq] at h
      obtain ⟨-, h2⟩ := h
      rw [← h2]
      exact ⟨hrat, hlike⟩
    | error e =>
      cases e with
      | doesNotExist a =>
        intro h
        simp only [statusOf, drfStatus, bind, Except.bind, pure, Except.pure,
          Except.ok.injEq, Prod.mk.injEq] at h
        obtain ⟨-, h2⟩ := h
        rw [← h2]
        refine ⟨hrat, ?_⟩
        rw [List.pairwise_append]
        refine ⟨hlike, by simp, ?_⟩
        intro x hx y hy
        have hnil := filter_nil_of_djangoGet_dne hg2
        have hxne := List.filter_eq_nil_iff.mp hnil x hx
        simp only [beq_iff_eq] at hxne
        rcases List.mem_singleton.mp hy with rfl
        simpa using hxne
      | multipleObjectsReturned a => intro h; simp at h
      | attributeError a => intro h; simp at h
      | valueError a => intro h; simp at h
      | fieldError a => intro h; simp at h
      | assertionError a => intro h; simp at h

/-- A successful `like` DELETE preserves at-most-one-like-per-product. -/
theorem like_delete_preserves_perProductUnique (s : State) (pk c : Nat)
    (resp : Resp) (s2 : State) (hinv : s.perProductUnique)
    (h : Products.like_delete s pk c = .ok (resp, s2)) : s2.perProductUnique := by
  obtain ⟨hrat, hlike⟩ := hinv
  revert h
  unfold Products.like_delete
  cases hg : djangoGet s.products (fun q => q.id == pk) "Product" with
  | error e =>
    cases e with
    | doesNotExist a =>
      intro h
      simp only [statusOf, drfStatus, Except.ok.injEq, Prod.mk.injEq] at h
      obtain ⟨-, h2⟩ := h
      rw [← h2]
      exact ⟨hrat, hlike⟩
    | multipleObjectsReturned a => intro h; simp at h
    | attributeError a => intro h; simp at h
    | valueError a => intro h; simp at h
    | fieldError a => intro h; simp at h
    | assertionError a => intro h; simp at h
  | ok product =>
    dsimp only
    intro h
    cases hg2 : djangoGet s.likes
        (fun l => l.product_id == product.id && l.customer_id == c) "UserLike" with
    | ok like =>
      rw [hg2] at h
      simp only [statusOf, drfStatus, Except.ok.injEq, Prod.mk.injEq] at h
      obtain ⟨-, h2⟩ := h
      rw [← h2]
      exact ⟨hrat, List.Pairwise.sublist (List.filter_sublist _) hlike⟩
    | error e =>
      rw [hg2] at h
      cases e with
      | doesNotExist a => simp [statusOf, drfStatus] at h
      | multipleObjectsReturned a => simp at h
      | attributeError a => simp at h
      | valueError a => simp at h
      | fieldError a => simp at h
      | assertionError a => simp at h

/-- The empty store satisfies the handler-maintained invariant. -/
theorem empty_state_perProductUnique :
    State.perProductUnique { products := [], ratings := [], likes := [] } := by
  exact ⟨List.Pairwise.nil, List.Pairwise.nil⟩

end Bangazon

namespace Bangazon

/-! ## C9 — only the literal direction string "desc" matters -/

/-- Stage 2 ignores any direction value other than the literal `"desc"`:
the handler only ever compares `direction == "desc"` (line 282). -/
theorem applyOrder_direction_ignored (o : Option String) (d : String) (hne : d ≠ "desc")
    (l : List Product) : applyOrder o (some d) l = applyOrder o none l := by
  cases o with
  | none => rfl
  | some f => simp [applyOrder, hne]

/-- C9: for every order_by field and every direction value other than the
exact string "desc" ("asc", "DESC", anything else), the list operation
returns exactly what it returns with no direction parameter at all: only the
literal "desc" reverses the ordering, every other value is silently
ignored. -/
theorem C9_direction_literal_desc_only (qp : QueryParams) (ps : List Product) (d : String)
    (hd : qp.direction = some d) (hne : d ≠ "desc") :
    Products.list qp ps = Products.list { qp with direction := none } ps := by
  simp only [Products.list]
  rw [hd, applyOrder_direction_ignored qp.order_by d hne]

/-- C9 witness request: ascending price order requested explicitly. -/
def qpC9 : QueryParams := { order_by := some "price", direction := some "asc" }

/-- C9 witness: `direction=asc` produces byte-for-byte the same response as
omitting `direction`. -/
theorem C9_direction_literal_desc_only_witness :
    Products.list qpC9 [pKite, pBall] = Products.list { qpC9 with direction := none } [pKite, pBall] :=
  C9_direction_literal_desc_only qpC9 [pKite, pBall] "asc" rfl (by decide)

/-! ## C8 — the `min_price` filter -/

/-- `Products.list` factors through its last stage: the `min_price` filter is
applied to the result of all earlier stages. -/
theorem list_minPrice_last (qp : QueryParams) (ps : List Product) :
    Products.list qp ps =
      Except.bind (Products.list { qp with min_price := none } ps) (applyMinPrice qp.min_price) := by
  simp only [Products.list, bind, Except.bind]
  cases applyOrder qp.order_by qp.direction (applyLocation qp.location ps) with
  | error e => rfl
  | ok l1 =>
    dsimp only
    cases applyCategory qp.category l1 with
    | error e => rfl
    | ok l2 =>
      dsimp only
      cases applyQuantity qp.quantity l2 with
      | error e => rfl
      | ok l3 =>
        dsimp only
        cases applyNumberSold qp.number_sold l3 with
        | error e => rfl
        | ok l4 => simp [applyMinPrice]

/-- C8 counterexample request: a minimum price with a fractional part. -/
def qpC8 : QueryParams := { min_price := some "10.5" }

/-- C8 counterexample: with `min_price=10.5` the request does NOT filter by
the truncated bound 10 — Python `int("10.5")` raises `ValueError`, so the
request fails with a server error and the surviving product `pBall` (price
20 ≥ 10) is not included in any response body.  Fractional parts of the
requested minimum are not "lost by truncation": they abort the request. -/
theorem C8_counterexample :
    Products.list qpC8 [pBall] = .error (.valueError "10.5") ∧ (10 : Rat) ≤ pBall.price := by
  decide

/-- C8 (amended): when `min_price` parses as a Python int literal `k`, the
response is exactly the products surviving the earlier stages whose price is
≥ `k` (so for the integral values `int` accepts, the bound is exact — no
truncation happens); when `min_price` does not parse (e.g. it has a
fractional part) and any product survives the earlier stages, the handler
raises `ValueError` instead of filtering. -/
theorem C8_min_price_integer_bound (qp : QueryParams) (ps : List Product) (m : String)
    (l : List Product) (hm : qp.min_price = some m)
    (hrest : Products.list { qp with min_price := none } ps = .ok l) :
    (∀ k : Int, pyInt m = some k →
        Products.list qp ps = .ok (l.filter (fun p => decide ((k : Rat) ≤ p.price)))) ∧
    (pyInt m = none → l ≠ [] → Products.list qp ps = .error (.valueError m)) := by
  have hbase := list_minPrice_last qp ps
  rw [hrest, hm] at hbase
  simp only [Except.bind] at hbase
  constructor
  · intro k hk
    rw [hbase]
    cases l with
    | nil => simp [applyMinPrice]
    | cons a t =>
      simp [applyMinPrice, pyIntE, hk, bind, Except.bind, pure, Except.pure,
        Functor.map, Except.map]
  · intro hk hne
    rw [hbase]
    cases l with
    | nil => exact absurd rfl hne
    | cons a t =>
      simp [applyMinPrice, pyIntE, hk, bind, Except.bind, Functor.map, Except.map]

/-- C8 witness: `min_price=15` keeps exactly the surviving products with
price ≥ 15 (here `pBall` at 20, not `pKite` at 14.99). -/
theorem C8_min_price_integer_bound_witness :
    Products.list { min_price := some "15" } [pKite, pBall] = .ok [pBall] := by
  have h := (C8_min_price_integer_bound { min_price := some "15" } [pKite, pBall] "15"
    [pKite, pBall] rfl (by decide)).1 15 (by decide)
  rw [h]
  decide

end Bangazon

namespace Bangazon

/-! ## Insertion sort lemmas (the model's stand-in for SQL ORDER BY) -/

/-- Inserting permutes: `insertLe le a l` is `a :: l` up to order. -/
theorem insertLe_perm {α : Type} (le : α → α → Bool) (a : α) (l : List α) :
    (insertLe le a l).Perm (a :: l) := by
  induction l with
  | nil => simp [insertLe]
  | cons b t ih =>
    by_cases h : le a b = true
    · simp [insertLe, h]
    · simp only [insertLe, h, if_neg, Bool.not_eq_true]
      exact (ih.cons b).trans (List.Perm.swap a b t)

/-- Sorting permutes. -/
theorem sortLe_perm {α : Type} (le : α → α → Bool) (l : List α) :
    (sortLe le l).Perm l := by
  induction l with
  | nil => simp [sortLe]
  | cons a t ih =>
    exact (insertLe_perm le a (sortLe le t)).trans (ih.cons a)

/-- Inserting into a sorted list keeps it sorted (total transitive `le`). -/
theorem insertLe_pairwise {α : Type} (le : α → α → Bool)
    (htot : ∀ x y, le x y = true ∨ le y x = true)
    (htrans : ∀ x y z, le x y = true → le y z = true → le x z = true)
    (a : α) (l : List α) (h : l.Pairwise (fun x y => le x y = true)) :
    (insertLe le a l).Pairwise (fun x y => le x y = true) := by
  induction l with
  | nil => simp [insertLe]
  | cons b t ih =>
    rcases List.pairwise_cons.mp h with ⟨hb, ht⟩
    by_cases hab : le a b = true
    · simp only [insertLe, hab, if_pos]
      refine List.pairwise_cons.mpr ⟨?_, h⟩
      intro x hx
      rcases List.mem_cons.mp hx with rfl | hxt
      · exact hab
      · exact htrans a b x hab (hb x hxt)
    · simp only [insertLe, hab, if_neg, Bool.not_eq_true]
      have hba : le b a = true := (htot a b).resolve_left hab
      refine List.pairwise_cons.mpr ⟨?_, ih ht⟩
      intro x hx
      have hx2 : x ∈ a :: t := (insertLe_perm le a t).mem_iff.mp hx
      rcases List.mem_cons.mp hx2 with rfl | hxt
      · exact hba
      · exact hb x hxt

/-- The sort output is sorted (total transitive `le`). -/
theorem sortLe_pairwise {α : Type} (le : α → α → Bool)
    (htot : ∀ x y, le x y = true ∨ le y x = true)
    (htrans : ∀ x y z, le x y = true → le y z = true → le x z = true)
    (l : List α) : (sortLe le l).Pairwise (fun x y => le x y = true) := by
  induction l with
  | nil => simp [sortLe]
  | cons a t ih => exact insertLe_pairwise le htot htrans a (sortLe le t) ih

/-- Two sorted permutations of each other are equal, provided `le` is
antisymmetric on the elements involved: this is what makes "the N most
recently created products" well defined when the sort keys are distinct. -/
theorem sorted_perm_eq {α : Type} (le : α → α → Bool) :
    ∀ {l₁ l₂ : List α}, l₁.Perm l₂ →
      l₁.Pairwise (fun a b => le a b = true) →
      l₂.Pairwise (fun a b => le a b = true) →
      (∀ a ∈ l₁, ∀ b ∈ l₁, le a b = true → le b a = true → a = b) →
      l₁ = l₂ := by
  intro l₁
  induction l₁ with
  | nil =>
    intro l₂ hp _ _ _
    exact List.Perm.nil_eq hp
  | cons a t ih =>
    intro l₂ hp hs1 hs2 hanti
    cases l₂ with
    | nil => exact (List.cons_ne_nil a t hp.eq_nil).elim
    | cons b u =>
      by_cases hab : a = b
      · subst hab
        have ht : t.Perm u := hp.cons_inv
        have hrec : t = u := by
          refine ih ht hs1.of_cons hs2.of_cons ?_
          intro x hx y hy
          exact hanti x (List.mem_cons_of_mem a hx) y (List.mem_cons_of_mem a hy)
        rw [hrec]
      · have haMem : a ∈ b :: u := hp.mem_iff.mp (List.mem_cons_self a t)
        have hau : a ∈ u := by
          rcases List.mem_cons.mp haMem with h | h
          · exact absurd h hab
          · exact h
        have hbMem : b ∈ a :: t := hp.mem_iff.mpr (List.mem_cons_self b u)
        have hbt : b ∈ t := by
          rcases List.mem_cons.mp hbMem with h | h
          · exact absurd h.symm hab
          · exact h
        have h1 : le a b = true := (List.pairwise_cons.mp hs1).1 b hbt
        have h2 : le b a = true := (List.pairwise_cons.mp hs2).1 a hau
        exact absurd (hanti a (List.mem_cons_self a t) b (List.mem_cons_of_mem a hbt) h1 h2) hab

/-! ## The list pipeline as explicit binds -/

theorem exceptBind_ok {ε α β : Type} (a : α) (f : α → Except ε β) :
    Except.bind (.ok a) f = f a := rfl

theorem exceptBind_err {ε α β : Type} (e : ε) (f : α → Except ε β) :
    Except.bind (.error e) f = .error e := rfl

/-- `Products.list` IS the six stages composed in the handler's fixed order:
location, then order_by/direction, then category, then quantity, then
number_sold, then min_price. -/
theorem list_as_bind (qp : QueryParams) (ps : List Product) :
    Products.list qp ps =
      Except.bind (applyOrder qp.order_by qp.direction (applyLocation qp.location ps)) (fun l1 =>
        Except.bind (applyCategory qp.category l1) (fun l2 =>
          Except.bind (applyQuantity qp.quantity l2) (fun l3 =>
            Except.bind (applyNumberSold qp.number_sold l3)
              (applyMinPrice qp.min_price)))) := rfl

/-! ## The created_date-descending sort is canonical on distinct dates -/

theorem createdDescLe_total (a b : Product) :
    createdDescLe a b = true ∨ createdDescLe b a = true := by
  simp only [createdDescLe, decide_eq_true_eq]
  exact Nat.le_total b.created_date a.created_date

theorem createdDescLe_trans (a b c : Product) (h1 : createdDescLe a b = true)
    (h2 : createdDescLe b c = true) : createdDescLe a c = true := by
  simp only [createdDescLe, decide_eq_true_eq] at h1 h2 ⊢
  exact Nat.le_trans h2 h1

/-- On lists with pairwise-distinct creation dates, the date-descending sort
depends only on the multiset of products, not on their incoming order. -/
theorem sortLe_createdDesc_eq_of_perm {l m : List Product} (hp : l.Perm m)
    (hnd : (l.map Product.created_date).Nodup) :
    sortLe createdDescLe l = sortLe createdDescLe m := by
  refine sorted_perm_eq createdDescLe
    ((sortLe_perm createdDescLe l).trans (hp.trans (sortLe_perm createdDescLe m).symm))
    (sortLe_pairwise createdDescLe createdDescLe_total createdDescLe_trans l)
    (sortLe_pairwise createdDescLe createdDescLe_total createdDescLe_trans m) ?_
  intro x hx y hy h1 h2
  simp only [createdDescLe, decide_eq_true_eq] at h1 h2
  have hdate : x.created_date = y.created_date := Nat.le_antisymm h2 h1
  have hx2 : x ∈ l := (sortLe_perm createdDescLe l).mem_iff.mp hx
  have hy2 : y ∈ l := (sortLe_perm createdDescLe l).mem_iff.mp hy
  exact List.inj_on_of_nodup_map hnd hx2 hy2 hdate

/-- A successful order stage permutes its input. -/
theorem applyOrder_perm_ok {o d : Option String} {l l1 : List Product}
    (h : applyOrder o d l = .ok l1) : l1.Perm l := by
  revert h
  cases o with
  | none => intro h; cases h; exact List.Perm.refl l
  | some f =>
    simp only [applyOrder]
    cases djangoOrderKey (if d = some "desc" then "-" ++ f else f) with
    | none => intro h; cases h
    | some fb =>
      cases fb with
      | mk fld descFlag =>
        cases descFlag with
        | true => intro h; cases h; exact sortLe_perm _ l
        | false => intro h; cases h; exact sortLe_perm _ l

/-- The quantity stage gives the same answer on any two permutations of its
input when creation dates are distinct: it re-sorts by date before slicing. -/
theorem applyQuantity_eq_of_perm {l m : List Product} (hp : l.Perm m)
    (hnd : (l.map Product.created_date).Nodup) (q : String) :
    applyQuantity (some q) l = applyQuantity (some q) m := by
  simp only [applyQuantity, bind, Except.bind, pyIntE]
  cases pyInt q with
  | none => rfl
  | some n => simp [sortLe_createdDesc_eq_of_perm hp hnd]

/-- When quantity is present, the stages from category on give the same
answer on any two permutations of the order stage's output. -/
theorem tail_stages_eq_of_perm (qp : QueryParams) {l m : List Product}
    (hp : l.Perm m) (hnd : (l.map Product.created_date).Nodup) (q : String)
    (hq : qp.quantity = some q) :
    Except.bind (applyCategory qp.category l) (fun l2 =>
      Except.bind (applyQuantity qp.quantity l2) (fun l3 =>
        Except.bind (applyNumberSold qp.number_sold l3) (applyMinPrice qp.min_price))) =
    Except.bind (applyCategory qp.category m) (fun l2 =>
      Except.bind (applyQuantity qp.quantity l2) (fun l3 =>
        Except.bind (applyNumberSold qp.number_sold l3) (applyMinPrice qp.min_price))) := by
  cases qp.category with
  | none =>
    simp only [applyCategory, exceptBind_ok]
    rw [hq, applyQuantity_eq_of_perm hp hnd q]
  | some c =>
    simp only [applyCategory, bind, Except.bind, pyIntE]
    cases pyInt c with
    | none => rfl
    | some k =>
      simp only [pure, Except.pure]
      rw [hq, applyQuantity_eq_of_perm (hp.filter _) (List.Nodup.sublist
        (List.Sublist.map Product.created_date (List.filter_sublist l)) hnd) q]

end Bangazon

namespace Bangazon

/-! ## C7 — `quantity` overrides any requested ordering -/

/-- C7: when `quantity=N` is present (N parsed by Python `int`, N ≥ 0), the
requested ordering is valid, and the products' creation dates are pairwise
distinct (SQL leaves tie order between equal dates unspecified), the list
operation (1) returns exactly what it returns with order_by and direction
removed — the earlier ordering is discarded — and (2) its result is the later
stages applied to the N most recently created products of the set filtered so
far (sorted by created_date descending and truncated to at most N). -/
theorem C7_quantity_overrides_ordering (qp : QueryParams) (ps : List Product)
    (q : String) (n : Int)
    (hq : qp.quantity = some q) (hn : pyInt q = some n) (hn0 : 0 ≤ n)
    (hord : ∃ l1, applyOrder qp.order_by qp.direction (applyLocation qp.location ps) = .ok l1)
    (hnd : (ps.map Product.created_date).Nodup) :
    Products.list qp ps = Products.list { qp with order_by := none, direction := none } ps ∧
    Products.list qp ps =
      Except.bind (applyCategory qp.category (applyLocation qp.location ps)) (fun l2 =>
        Except.bind (applyNumberSold qp.number_sold ((sortLe createdDescLe l2).take n.toNat))
          (applyMinPrice qp.min_price)) := by
  obtain ⟨l1, hl1⟩ := hord
  have hpermL : l1.Perm (applyLocation qp.location ps) := applyOrder_perm_ok hl1
  have hndL : ((applyLocation qp.location ps).map Product.created_date).Nodup := by
    cases hc : qp.location with
    | none => simpa [applyLocation] using hnd
    | some loc =>
      simp only [applyLocation]
      exact List.Nodup.sublist (List.Sublist.map Product.created_date (List.filter_sublist ps)) hnd
  have hnd1 : (l1.map Product.created_date).Nodup :=
    ((hpermL.map Product.created_date).nodup_iff).mpr hndL
  have hmain : Products.list qp ps =
      Except.bind (applyCategory qp.category (applyLocation qp.location ps)) (fun l2 =>
        Except.bind (applyQuantity qp.quantity l2) (fun l3 =>
          Except.bind (applyNumberSold qp.number_sold l3) (applyMinPrice qp.min_price))) := by
    rw [list_as_bind, hl1, exceptBind_ok]
    exact tail_stages_eq_of_perm qp hpermL hnd1 q hq
  constructor
  · rw [hmain, list_as_bind]
    rfl
  · rw [hmain]
    cases applyCategory qp.category (applyLocation qp.location ps) with
    | error e => rfl
    | ok l2 =>
      rw [exceptBind_ok, exceptBind_ok, hq]
      simp only [applyQuantity, bind, Except.bind, pyIntE, hn, pure, Except.pure]
      rw [if_neg (by omega)]

/-- C7 witness request: ascending price ordering requested together with
`quantity=2`. -/
def qpC7 : QueryParams := { order_by := some "price", quantity := some "2" }

/-- C7 witness: on two products with distinct dates, the ordered request and
the order-free request give identical responses once quantity is present. -/
theorem C7_quantity_overrides_ordering_witness :
    Products.list qpC7 [pBall, pKite] =
      Products.list { qpC7 with order_by := none, direction := none } [pBall, pKite] :=
  (C7_quantity_overrides_ordering qpC7 [pBall, pKite] "2" 2 rfl (by decide) (by decide)
    ⟨[pKite, pBall], by decide⟩ (by decide)).1

/-! ## C5 — fixed filter order, independent of request parameter order -/

/-- Nodup of mapped keys gives pairwise-distinct keys. -/
theorem pairwise_key_of_nodup_map {α β : Type} (f : α → β) {l : List α}
    (h : (l.map f).Nodup) : l.Pairwise (fun a b => f a ≠ f b) :=
  List.pairwise_map.mp h

/-- With duplicate-free parameter names, the query-dict lookup is invariant
under reordering of the request's parameters. -/
theorem rawGet_eq_of_perm {raw1 raw2 : List (String × String)} (hp : raw1.Perm raw2)
    (hk : (raw1.map Prod.fst).Nodup) (k : String) : rawGet raw1 k = rawGet raw2 k := by
  have hpw : raw1.Pairwise (fun a b => a.1 ≠ b.1) := pairwise_key_of_nodup_map Prod.fst hk
  have hf : (raw1.filter (fun kv => kv.1 == k)).Perm (raw2.filter (fun kv => kv.1 == k)) :=
    hp.filter _
  have hlen := filter_key_len_le_one Prod.fst k raw1 hpw
  unfold rawGet
  cases hfl : raw1.filter (fun kv => kv.1 == k) with
  | nil =>
    rw [hfl] at hf
    have h2 : raw2.filter (fun kv => kv.1 == k) = [] := (List.Perm.nil_eq hf).symm
    rw [h2]
  | cons x t =>
    cases t with
    | nil =>
      rw [hfl] at hf
      have h2 : raw2.filter (fun kv => kv.1 == k) = [x] := List.perm_singleton.mp hf.symm
      rw [h2]
    | cons y u =>
      rw [hfl] at hlen
      simp at hlen

/-- The seven parameters the handler reads are insensitive to request
parameter order (duplicate-free names). -/
theorem paramsOfRaw_eq_of_perm {raw1 raw2 : List (String × String)} (hp : raw1.Perm raw2)
    (hk : (raw1.map Prod.fst).Nodup) : paramsOfRaw raw1 = paramsOfRaw raw2 := by
  unfold paramsOfRaw
  simp only [rawGet_eq_of_perm hp hk]

/-- C5: for every combination of the seven query parameters, the list
operation is the composition of the six filter stages in the handler's fixed
order — location substring match, then order_by/direction, then category,
then quantity truncation, then number_sold, then min_price — and the response
does not depend on the order in which the (duplicate-free) parameters appear
in the request. -/
theorem C5_filters_fixed_order (raw1 raw2 : List (String × String)) (ps : List Product)
    (hperm : raw1.Perm raw2) (hkeys : (raw1.map Prod.fst).Nodup) :
    Products.list (paramsOfRaw raw1) ps = Products.list (paramsOfRaw raw2) ps ∧
    Products.list (paramsOfRaw raw1) ps =
      Except.bind (applyOrder (paramsOfRaw raw1).order_by (paramsOfRaw raw1).direction
          (applyLocation (paramsOfRaw raw1).location ps)) (fun l1 =>
        Except.bind (applyCategory (paramsOfRaw raw1).category l1) (fun l2 =>
          Except.bind (applyQuantity (paramsOfRaw raw1).quantity l2) (fun l3 =>
            Except.bind (applyNumberSold (paramsOfRaw raw1).number_sold l3)
              (applyMinPrice (paramsOfRaw raw1).min_price)))) := by
  refine ⟨?_, list_as_bind _ ps⟩
  rw [paramsOfRaw_eq_of_perm hperm hkeys]

/-- C5 witness raw query strings: the same two parameters in both orders. -/
def raw1C5 : List (String × String) := [("category", "4"), ("min_price", "10")]

/-- The C5 witness query with its parameters transposed. -/
def raw2C5 : List (String × String) := [("min_price", "10"), ("category", "4")]

/-- C5 witness: `?category=4&min_price=10` and `?min_price=10&category=4`
produce identical responses. -/
theorem C5_filters_fixed_order_witness :
    Products.list (paramsOfRaw raw1C5) [pKite, pBall] =
      Products.list (paramsOfRaw raw2C5) [pKite, pBall] :=
  (C5_filters_fixed_order raw1C5 raw2C5 [pKite, pBall] (by decide) (by decide)).1

end Bangazon
